import Mathlib

/-!
# Verification of the ai18n translation client core (`src/core.js`)

A shallow embedding of the `I18nClient` class: the cache-key hash, the
localStorage-backed expiring cache, the single-translate coordination path,
the batch-translate path, cache clearing, and a small event system for the
pending-request registry under cooperative concurrency.

Conventions of the embedding:
* JavaScript strings are Lean `String`s; storage keys are `List Char`
  (string concatenation becomes list append).
* `localStorage` is an association list from keys to parsed cache entries;
  the `JSON.stringify`/`JSON.parse` round trip of `{value, expires}` is the
  identity and is elided.
* Machine times (`Date.now()`) are `Nat` milliseconds.
* 32-bit signed integer arithmetic of the hash is `Int` with an explicit
  wrap into `[-2^31, 2^31)`.
* `fetch` outcomes are an explicit input: a transport error (a rejected
  promise, caught by the code) or a response with an `ok` flag and a body.
* `item.id || this._generateId()` (randomness) is modelled by items
  arriving with their ids already assigned.
-/

namespace AI18n

/-- JavaScript `a || b` for an optional string against a string default:
`undefined` and `""` are falsy. -/
def jsOrS (a : Option String) (b : String) : String :=
  match a with
  | some s => if s = "" then b else s
  | none => b

/-- JavaScript `a || b` for two optional strings (`options.targetLanguage ||
this.defaultTargetLanguage`): a falsy left operand yields the right operand
unchanged. -/
def jsOrOS (a b : Option String) : Option String :=
  match a with
  | some s => if s = "" then b else some s
  | none => b

/-- JavaScript truthiness of a `string | null` value: `null` and `""` are
falsy. -/
def jsTruthy (a : Option String) : Bool :=
  match a with
  | some s => s ≠ ""
  | none => false

/-- Template-literal stringification of a possibly-`undefined` string. -/
def jsTemplate (a : Option String) : String :=
  match a with
  | some s => s
  | none => "undefined"

/-! ## The hash and the cache key (`_simpleHash`, `_generateCacheKey`) -/

/-- Coercion of an integer to a 32-bit signed integer, as performed by the
JavaScript bitwise operators. -/
def toInt32 (n : Int) : Int :=
  ((n + 2147483648) % 4294967296) - 2147483648

/-- One iteration of the `_simpleHash` loop:
`hash = (hash << 5) - hash + char; hash = hash & hash`.
`<< 5` wraps to int32; the final `& hash` wraps the sum to int32. -/
def hashStep (h : Int) (c : Char) : Int :=
  toInt32 (toInt32 (h * 32) - h + c.toNat)

/-- The accumulated 32-bit hash of `_simpleHash` before formatting. -/
def simpleHashInt (s : String) : Int :=
  s.toList.foldl hashStep 0

/-- `_simpleHash(str)`: `Math.abs(hash).toString(16)`. -/
def simpleHash (s : String) : String :=
  String.mk (Nat.toDigits 16 (simpleHashInt s).natAbs)

/-- `_generateCacheKey(sourceLanguage, targetLanguage, text)` =
`` `${sourceLanguage}:${targetLanguage}:${hash}` ``. -/
def generateCacheKey (src tgt text : String) : String :=
  src ++ ":" ++ tgt ++ ":" ++ simpleHash text

/-! ## The localStorage model and the expiring cache -/

/-- A parsed cache entry `{value, expires}` (`expires` in ms since epoch). -/
structure CacheEntry where
  value : String
  expires : Nat
deriving DecidableEq

/-- `localStorage` as an association list from raw keys to parsed entries. -/
abbrev Storage := List (List Char × CacheEntry)

/-- `localStorage.getItem(k)` (with the parse already applied). -/
def getItem (k : List Char) (st : Storage) : Option CacheEntry :=
  (st.find? (fun kv => kv.1 == k)).map Prod.snd

/-- `localStorage.removeItem(k)` (removes every binding of the key). -/
def removeItem (k : List Char) (st : Storage) : Storage :=
  st.filter (fun kv => kv.1 != k)

/-- `localStorage.setItem(k, v)`: overwrite the binding of the key. -/
def setItem (k : List Char) (v : CacheEntry) (st : Storage) : Storage :=
  (k, v) :: removeItem k st

/-- The raw storage key of a cache key: `` `i18n_${key}` ``. -/
def storeKey (cacheKey : String) : List Char :=
  ("i18n_" ++ cacheKey).toList

/-- `_getFromLocalCache(key)`: look up `i18n_<key>`; missing gives `null`;
an entry with `expires < Date.now()` is removed and gives `null`;
otherwise its value is returned. Returns the value together with the
storage it leaves behind (the possible write-on-read eviction). -/
def getFromLocalCache (key : String) (st : Storage) (now : Nat) :
    Option String × Storage :=
  match getItem (storeKey key) st with
  | none => (none, st)
  | some entry =>
    if entry.expires < now then (none, removeItem (storeKey key) st)
    else (some entry.value, st)

/-- `_saveToLocalCache(key, value)`: store `{value, expires: Date.now() +
cacheTTL * 1000}` under `i18n_<key>`. -/
def saveToLocalCache (key : String) (value : String) (now ttl : Nat)
    (st : Storage) : Storage :=
  setItem (storeKey key) { value := value, expires := now + ttl * 1000 } st

/-! ## Configuration and results -/

/-- The client configuration after the constructor's defaulting. -/
structure Config where
  defaultSourceLanguage : String := "en"
  defaultTargetLanguage : Option String := none
  useLocalCache : Bool := true
  cacheTTL : Nat := 86400
deriving DecidableEq

/-- A translation result object `{text, translated, fromCache?, error?}`;
`none` models an absent field. -/
structure TranslationResult where
  text : String
  translated : Bool
  fromCache : Option Bool := none
  error : Option String := none
deriving DecidableEq

/-- The outcome of a `fetch` to the single-translate endpoint: either the
promise rejected (transport failure, caught by the code) or a response
arrived with its `ok` flag, optional body `error` field and body `text`. -/
inductive FetchOutcome where
  | transportError (msg : String)
  | response (ok : Bool) (errField : Option String) (text : String)
deriving DecidableEq

/-- `_fetchTranslation(text, ...)`: on an ok response, `{text: result.text,
translated: true}`; a non-ok response throws `Error(result.error ||
"Translation failed")`, and every throw is caught and converted to
`{text, translated: false, error: message}`. -/
def fetchTranslation (text : String) (out : FetchOutcome) : TranslationResult :=
  match out with
  | .transportError msg => { text := text, translated := false, error := some msg }
  | .response ok errField rtext =>
    if ok then { text := rtext, translated := true }
    else { text := text, translated := false,
           error := some (jsOrS errField "Translation failed") }

/-! ## Single translate (`translate`) -/

/-- Options of a `translate` call. -/
structure TranslateOptions where
  sourceLanguage : Option String := none
  targetLanguage : Option String := none
  force : Bool := false
deriving DecidableEq

/-- Everything one `translate` call produces: its result, the storage it
leaves behind, whether it issued a network call, and whether it performed a
cache lookup. -/
structure TranslateOutcome where
  result : TranslationResult
  storage : Storage
  networkCalled : Bool
  cacheLookup : Bool
deriving DecidableEq

/-- `translate(text, options)`. Inputs beyond the JavaScript arguments make
the world explicit: the storage, the set of cache keys with a pending
request together with the result such a shared pending promise resolves to,
the current time, and the outcome `fetch` would produce if called.

Mirrors the source order: falsy-text, falsy-target and identical-language
early returns; cache lookup when `useLocalCache && !options.force`
(a truthy cached value is a hit); pending-request reuse; otherwise the
network call, registered while in flight, whose successful result is cached. -/
def translate (cfg : Config) (text? : Option String) (opts : TranslateOptions)
    (st : Storage) (pending : List String) (pendingResult : TranslationResult)
    (now : Nat) (fetchOut : FetchOutcome) : TranslateOutcome :=
  let sourceLanguage := jsOrS opts.sourceLanguage cfg.defaultSourceLanguage
  let targetLanguage? := jsOrOS opts.targetLanguage cfg.defaultTargetLanguage
  if ¬ jsTruthy text? then
    { result := { text := "", translated := false }, storage := st,
      networkCalled := false, cacheLookup := false }
  else
    let text := jsTemplate text?
    if ¬ jsTruthy targetLanguage? then
      { result := { text := text, translated := false }, storage := st,
        networkCalled := false, cacheLookup := false }
    else
      let targetLanguage := jsTemplate targetLanguage?
      if sourceLanguage = targetLanguage then
        { result := { text := text, translated := false }, storage := st,
          networkCalled := false, cacheLookup := false }
      else
        let cacheKey := generateCacheKey sourceLanguage targetLanguage text
        let lookedUp := cfg.useLocalCache && !opts.force
        let look := if lookedUp then getFromLocalCache cacheKey st now else (none, st)
        if jsTruthy look.1 then
          { result := { text := jsTemplate look.1, translated := true,
                        fromCache := some true },
            storage := look.2, networkCalled := false, cacheLookup := lookedUp }
        else if cacheKey ∈ pending then
          { result := pendingResult, storage := look.2,
            networkCalled := false, cacheLookup := lookedUp }
        else
          let result := fetchTranslation text fetchOut
          let st2 :=
            if result.translated && cfg.useLocalCache then
              saveToLocalCache cacheKey result.text now cfg.cacheTTL look.2
            else look.2
          { result := result, storage := st2,
            networkCalled := true, cacheLookup := lookedUp }

/-! ## Batch translate (`batchTranslate`) -/

/-- An input item of `batchTranslate` (id already assigned; see the header
note on `_generateId`). -/
structure BatchInItem where
  id : String
  text : String
  sourceLanguage : Option String := none
  targetLanguage : Option String := none
deriving DecidableEq

/-- A processed item: languages defaulted, plus the fields the cache-check
loop mutates onto it (`translated`, `translatedText`). -/
structure ProcItem where
  id : String
  text : String
  sourceLanguage : String
  targetLanguage : Option String
  translated : Bool := false
  translatedText : Option String := none
deriving DecidableEq

/-- The `items.map` defaulting step of `batchTranslate`. -/
def processItems (cfg : Config) (items : List BatchInItem) : List ProcItem :=
  items.map fun it =>
    { id := it.id, text := it.text,
      sourceLanguage := jsOrS it.sourceLanguage cfg.defaultSourceLanguage,
      targetLanguage := jsOrOS it.targetLanguage cfg.defaultTargetLanguage }

/-- The cache key a processed item is checked and stored under (an absent
target language is stringified by the template literal). -/
def procCacheKey (p : ProcItem) : String :=
  generateCacheKey p.sourceLanguage (jsTemplate p.targetLanguage) p.text

/-- The per-item cache-check loop of `batchTranslate`: a truthy cached value
marks the item translated and records the cached text; each lookup threads
the storage (a lookup can evict an expired entry). -/
def markCacheHits (now : Nat) : List ProcItem → Storage → List ProcItem × Storage
  | [], st => ([], st)
  | p :: ps, st =>
    let look := getFromLocalCache (procCacheKey p) st now
    let p1 := if jsTruthy look.1 then
        { p with translated := true, translatedText := look.1 } else p
    let rest := markCacheHits now ps look.2
    (p1 :: rest.1, rest.2)

/-- An item of the batch endpoint's `result.results`. -/
structure ServerItem where
  id : String
  text : String
  translated : Bool
  error : Option String := none
deriving DecidableEq

/-- A per-item entry of the returned `results` array. -/
structure BatchItemResult where
  id : String
  text : String
  translated : Bool
  fromCache : Option Bool := none
  error : Option String := none
deriving DecidableEq

/-- A server item as it is returned verbatim from `translatedMap`. -/
def serverItemResult (s : ServerItem) : BatchItemResult :=
  { id := s.id, text := s.text, translated := s.translated, error := s.error }

/-- `translatedMap[id]` after the fill loop: the last server item with this
id (later assignments overwrite earlier ones). -/
def translatedMapFind (rs : List ServerItem) (i : String) : Option ServerItem :=
  rs.foldl (fun acc it => if it.id = i then some it else acc) none

/-- The loop caching each translated server item: the original processed item
is found by id to rebuild its cache key; items with an unknown id are not
cached. -/
def cacheServerResults (cfg : Config) (processed : List ProcItem) (now : Nat) :
    List ServerItem → Storage → Storage
  | [], st => st
  | s :: rest, st =>
    let st1 :=
      if s.translated && cfg.useLocalCache then
        match processed.find? (fun i => i.id == s.id) with
        | some orig => saveToLocalCache (procCacheKey orig) s.text now cfg.cacheTTL st
        | none => st
      else st
    cacheServerResults cfg processed now rest st1

/-- The outcome of the `fetch` to the batch endpoint. -/
inductive BatchFetchOutcome where
  | transportError (msg : String)
  | response (ok : Bool) (errField : Option String)
      (results : Option (List ServerItem)) (jobId : Option String)
deriving DecidableEq

/-- Options of a `batchTranslate` call. -/
structure BatchOptions where
  force : Bool := false
  async : Bool := false
deriving DecidableEq

/-- Everything one `batchTranslate` call produces; `networkPayloads` lists
the item payload of each network call the call issued (empty when no call
was made). -/
structure BatchOutcome where
  results : List BatchItemResult := []
  error : Option String := none
  jobId : Option String := none
  status : Option String := none
  storage : Storage := []
  networkPayloads : List (List ProcItem) := []
deriving DecidableEq

/-- The defaulting and cache-check phases of `batchTranslate`: the processed
items (hits marked) together with the storage after the lookups. -/
def batchCachePhase (cfg : Config) (opts : BatchOptions) (items : List BatchInItem)
    (st : Storage) (now : Nat) : List ProcItem × Storage :=
  if cfg.useLocalCache && !opts.force then markCacheHits now (processItems cfg items) st
  else (processItems cfg items, st)

/-- `batchTranslate(items, options)`, with the world explicit as in
`translate`. An item marked translated in the merge always carries a set
`translatedText` (the only assignment of one also assigns the other), so the
`getD` defaults in the mapped results are unreachable. -/
def batchTranslate (cfg : Config) (items : List BatchInItem) (opts : BatchOptions)
    (st : Storage) (now : Nat) (fetchOut : BatchFetchOutcome) : BatchOutcome :=
  if items.isEmpty then { results := [], storage := st }
  else
    let pc := batchCachePhase cfg opts items st now
    let processed := pc.1
    let st1 := pc.2
    let itemsToTranslate := processed.filter (fun p => !p.translated)
    if itemsToTranslate.isEmpty then
      { results := processed.map (fun p =>
          { id := p.id, text := p.translatedText.getD "", translated := true,
            fromCache := some true }),
        storage := st1 }
    else
      match fetchOut with
      | .transportError msg =>
        { error := some msg,
          results := processed.map (fun p =>
            { id := p.id, text := p.text, translated := false, error := some msg }),
          storage := st1, networkPayloads := [itemsToTranslate] }
      | .response ok errField results? jobId? =>
        if !ok then
          let msg := jsOrS errField "Translation failed"
          { error := some msg,
            results := processed.map (fun p =>
              { id := p.id, text := p.text, translated := false, error := some msg }),
            storage := st1, networkPayloads := [itemsToTranslate] }
        else if opts.async && jsTruthy jobId? then
          { jobId := jobId?, status := some "processing", storage := st1,
            networkPayloads := [itemsToTranslate] }
        else
          let rs := results?.getD []
          let st2 := cacheServerResults cfg processed now rs st1
          { results := processed.map (fun p =>
              if p.translated then
                { id := p.id, text := p.translatedText.getD "",
                  translated := true, fromCache := some true }
              else
                match translatedMapFind rs p.id with
                | some s => serverItemResult s
                | none => { id := p.id, text := p.text, translated := false,
                            error := some "Translation failed" }),
            storage := st2, networkPayloads := [itemsToTranslate] }

/-! ## Cache clearing (`clearCache`) -/

/-- `startsWithL p s`: `s.startsWith(p)` on raw key characters. -/
def startsWithL : List Char → List Char → Bool
  | [], _ => true
  | _ :: _, [] => false
  | p :: ps, s :: ss => p == s && startsWithL ps ss

/-- `clearCache(targetLanguage = null)`: a no-op when the cache is disabled;
with a falsy argument, remove every stored key starting with `"i18n_"`; with
a target language, remove every key starting with
`` `i18n_${this.defaultSourceLanguage}:${targetLanguage}:` ``.
The source iterates the pre-captured key list and calls `removeItem` on each
match, which removes exactly the matching bindings: a filter. -/
def clearCache (cfg : Config) (targetLanguage : Option String) (st : Storage) :
    Storage :=
  if !cfg.useLocalCache then st
  else if ¬ jsTruthy targetLanguage then
    st.filter (fun kv => !startsWithL ("i18n_".toList) kv.1)
  else
    st.filter (fun kv =>
      !startsWithL
        (("i18n_" ++ cfg.defaultSourceLanguage ++ ":"
          ++ jsTemplate targetLanguage ++ ":").toList) kv.1)

/-! ## The pending-request registry under cooperative concurrency

JavaScript's event loop runs the synchronous span between two `await`s
atomically. For a `translate` call that misses the cache, the span of
interest checks `this.pendingRequests[cacheKey]`, and either returns the
stored promise or atomically creates the network request and registers it.
The other atomic span is the settlement of a network request: the `finally`
of the first caller deletes the registry entry, and every caller awaiting
that promise receives its value. The event system below has exactly these
two events; requests are numbered by a counter so that "the same network
call" is "the same request id". -/

/-- The registry-relevant state: `pending` is `this.pendingRequests`
(cache key → request id); `inFlight` lists the started, not yet settled
network requests with the key they were issued for; `waiters` records which
caller awaits which request; `results` the value each caller received. -/
structure ConcState where
  pending : List (String × Nat)
  inFlight : List (Nat × String)
  nextId : Nat
  waiters : List (Nat × Nat)
  results : List (Nat × TranslationResult)
deriving DecidableEq

/-- The empty initial state of a fresh client. -/
def initConc : ConcState :=
  { pending := [], inFlight := [], nextId := 0, waiters := [], results := [] }

/-- An atomic event: a caller's cache-missed `translate` reaching the
pending-request check, or the settlement of a network request (with the
result its promise carries — success or failure alike). -/
inductive ConcEvent where
  | call (caller : Nat) (key : String)
  | settle (rid : Nat) (res : TranslationResult)
deriving DecidableEq

/-- One atomic step. A `call` finding its key pending awaits that request;
otherwise it creates and registers a fresh network request. A `settle` of an
in-flight request removes it from flight, deletes its registry entry
(the `finally`, on success and failure alike) and delivers the result to
every caller awaiting it. -/
def concStep (s : ConcState) : ConcEvent → ConcState
  | .call caller key =>
    match s.pending.find? (fun kv => kv.1 == key) with
    | some kv => { s with waiters := (caller, kv.2) :: s.waiters }
    | none =>
      { s with
        pending := (key, s.nextId) :: s.pending,
        inFlight := (s.nextId, key) :: s.inFlight,
        waiters := (caller, s.nextId) :: s.waiters,
        nextId := s.nextId + 1 }
  | .settle rid res =>
    if s.inFlight.any (fun p => p.1 == rid) then
      { s with
        inFlight := s.inFlight.filter (fun p => p.1 != rid),
        pending := s.pending.filter (fun kv => kv.2 != rid),
        waiters := s.waiters.filter (fun w => w.2 != rid),
        results := s.results
          ++ (s.waiters.filter (fun w => w.2 == rid)).map (fun w => (w.1, res)) }
    else s

/-- The state after a sequence of events from a fresh client. -/
def concRun (evs : List ConcEvent) : ConcState :=
  evs.foldl concStep initConc

/-- The inductive invariant tying the registry to the in-flight requests:
registry keys are distinct, and the in-flight list is exactly the registry
with its pairs swapped. -/
def concInv (s : ConcState) : Prop :=
  (s.pending.map Prod.fst).Nodup ∧
  s.inFlight = s.pending.map (fun kv => (kv.2, kv.1))

/-! ## Shared concrete data and helper lemmas -/

/-- A concrete configuration used by concrete instances: defaults `en → es`,
cache enabled, default TTL. -/
def cfgW : Config := { defaultTargetLanguage := some "es" }

/-- A placeholder pending-promise result for calls whose pending branch is
unreachable. -/
def resW : TranslationResult := { text := "", translated := false }

lemma getItem_setItem_self (k : List Char) (v : CacheEntry) (st : Storage) :
    getItem k (setItem k v st) = some v := by
  simp [getItem, setItem, List.find?]

/-- A message describing why `_fetchTranslation`'s network phase failed, if
it did: the transport rejection message, or for a non-2xx response the
message of the thrown `Error(result.error || "Translation failed")`. -/
def fetchFailMsg : FetchOutcome → Option String
  | .transportError m => some m
  | .response ok errField _ =>
    if ok then none else some (jsOrS errField "Translation failed")

lemma fetchTranslation_fail (text : String) (f : FetchOutcome) (msg : String)
    (h : fetchFailMsg f = some msg) :
    fetchTranslation text f = { text := text, translated := false, error := some msg } := by
  cases f with
  | transportError m =>
    simp only [fetchFailMsg, Option.some.injEq] at h
    simp [fetchTranslation, h]
  | response ok eF t =>
    cases ok with
    | true => simp [fetchFailMsg] at h
    | false =>
      simp only [fetchFailMsg, if_neg, Option.some.injEq, Bool.false_eq_true,
        ↓reduceIte] at h
      simp [fetchTranslation, h]

/-! ## C3: expiry semantics of the cache lookup -/

/-- C3 (amended): on a cache lookup of an existing entry, the entry is
treated as absent and evicted from storage exactly when `expires < now`
strictly; an entry whose expiry equals the current time is returned as
present and is not evicted. -/
theorem C3_expiry_eviction (key : String) (st : Storage) (now : Nat)
    (e : CacheEntry) (h : getItem (storeKey key) st = some e) :
    (e.expires < now →
      getFromLocalCache key st now = (none, removeItem (storeKey key) st)) ∧
    (¬ e.expires < now →
      getFromLocalCache key st now = (some e.value, st)) := by
  unfold getFromLocalCache
  rw [h]
  constructor
  · intro hlt
    simp [hlt]
  · intro hge
    simp [hge]

/-- C3 counterexample: an entry whose `expires` equals the current time
satisfies `expiresAt ≤ now`, yet the lookup returns it as present and leaves
it in storage — the code evicts only on the strict inequality. -/
theorem C3_counterexample :
    (100 : Nat) ≤ 100 ∧
    getFromLocalCache "k" [(storeKey "k", { value := "v", expires := 100 })] 100
      = (some "v", [(storeKey "k", { value := "v", expires := 100 })]) := by
  constructor
  · decide
  · decide

/-- C3 witness: the amended theorem applied to a concrete expired entry and
to a concrete boundary entry. -/
theorem C3_witness :
    getFromLocalCache "k" [(storeKey "k", { value := "v", expires := 100 })] 250
      = (none, removeItem (storeKey "k")
          [(storeKey "k", { value := "v", expires := 100 })]) ∧
    getFromLocalCache "k2" [(storeKey "k2", { value := "w", expires := 100 })] 100
      = (some "w", [(storeKey "k2", { value := "w", expires := 100 })]) := by
  have h1 := C3_expiry_eviction "k"
    [(storeKey "k", { value := "v", expires := 100 })] 250
    { value := "v", expires := 100 } (by decide)
  have h2 := C3_expiry_eviction "k2"
    [(storeKey "k2", { value := "w", expires := 100 })] 100
    { value := "w", expires := 100 } (by decide)
  exact ⟨h1.1 (by decide), h2.2 (by decide)⟩

/-! ## C7: edge-case policy of `translate` -/

/-- C7: `translate` settles its edge cases before any cache or network
activity. A falsy text returns `{text: "", translated: false}` with no
network call, no cache lookup and the storage untouched; with no truthy
resolvable target language it returns `{text, translated: false}` the same
way; and when the resolved source language equals the resolved target
language it returns `{text, translated: false}` with no network call, no
lookup, and nothing cached. -/
theorem C7_edge_case_policy (cfg : Config) (text? : Option String)
    (opts : TranslateOptions) (st : Storage) (pending : List String)
    (pr : TranslationResult) (now : Nat) (f : FetchOutcome) :
    (jsTruthy text? = false →
      translate cfg text? opts st pending pr now f =
        { result := { text := "", translated := false }, storage := st,
          networkCalled := false, cacheLookup := false }) ∧
    (jsTruthy text? = true →
      jsTruthy (jsOrOS opts.targetLanguage cfg.defaultTargetLanguage) = false →
      translate cfg text? opts st pending pr now f =
        { result := { text := jsTemplate text?, translated := false },
          storage := st, networkCalled := false, cacheLookup := false }) ∧
    (jsTruthy text? = true →
      jsOrS opts.sourceLanguage cfg.defaultSourceLanguage =
        jsTemplate (jsOrOS opts.targetLanguage cfg.defaultTargetLanguage) →
      translate cfg text? opts st pending pr now f =
        { result := { text := jsTemplate text?, translated := false },
          storage := st, networkCalled := false, cacheLookup := false }) := by
  refine ⟨fun h0 => ?_, fun h0 h1 => ?_, fun h0 h1 => ?_⟩
  · simp [translate, h0]
  · simp [translate, h0, h1]
  · by_cases h2 : jsTruthy (jsOrOS opts.targetLanguage cfg.defaultTargetLanguage) = true
    · simp [translate, h0, h2, h1]
    · simp only [Bool.not_eq_true] at h2
      simp [translate, h0, h2]

/-- C7 witness: the three edge cases at concrete inputs — empty text, a
configuration with no target language, and an explicit `es → es` identity
request. -/
theorem C7_witness :
    (translate cfgW (some "") {} [] [] resW 7 (.transportError "x") =
      { result := { text := "", translated := false }, storage := [],
        networkCalled := false, cacheLookup := false }) ∧
    (translate { defaultTargetLanguage := none } (some "Hi") {} [] [] resW 7
        (.transportError "x") =
      { result := { text := "Hi", translated := false }, storage := [],
        networkCalled := false, cacheLookup := false }) ∧
    (translate cfgW (some "Hola") { sourceLanguage := some "es" } [] [] resW 7
        (.transportError "x") =
      { result := { text := "Hola", translated := false }, storage := [],
        networkCalled := false, cacheLookup := false }) := by
  refine ⟨?_, ?_, ?_⟩
  · exact (C7_edge_case_policy cfgW (some "") {} [] [] resW 7
      (.transportError "x")).1 (by decide)
  · exact (C7_edge_case_policy { defaultTargetLanguage := none } (some "Hi") {}
      [] [] resW 7 (.transportError "x")).2.1 (by decide) (by decide)
  · exact (C7_edge_case_policy cfgW (some "Hola") { sourceLanguage := some "es" }
      [] [] resW 7 (.transportError "x")).2.2 (by decide) (by decide)

/-! ## C8: network failure never raises; the original text is the fallback -/

/-- C8: `translate` is a total function (the embedding returns a result for
every input, mirroring the catch-all in `_fetchTranslation`), and on any
call that reaches the network (truthy text and target, distinct languages,
no truthy cache hit, no pending request) whose fetch fails — transport
rejection or non-2xx response — it resolves with
`{text: originalText, translated: false, error: message}`, with nothing
written to the cache. -/
theorem C8_failure_fallback (cfg : Config) (text : String)
    (opts : TranslateOptions) (st : Storage) (pending : List String)
    (pr : TranslationResult) (now : Nat) (f : FetchOutcome) (msg : String)
    (htext : text ≠ "")
    (htgt : jsTruthy (jsOrOS opts.targetLanguage cfg.defaultTargetLanguage) = true)
    (hne : jsOrS opts.sourceLanguage cfg.defaultSourceLanguage ≠
      jsTemplate (jsOrOS opts.targetLanguage cfg.defaultTargetLanguage))
    (hmiss : jsTruthy (if cfg.useLocalCache && !opts.force then
      getFromLocalCache (generateCacheKey
        (jsOrS opts.sourceLanguage cfg.defaultSourceLanguage)
        (jsTemplate (jsOrOS opts.targetLanguage cfg.defaultTargetLanguage)) text)
        st now else (none, st)).1 = false)
    (hpend : generateCacheKey
      (jsOrS opts.sourceLanguage cfg.defaultSourceLanguage)
      (jsTemplate (jsOrOS opts.targetLanguage cfg.defaultTargetLanguage)) text
        ∉ pending)
    (hfail : fetchFailMsg f = some msg) :
    (translate cfg (some text) opts st pending pr now f).result
      = { text := text, translated := false, error := some msg } ∧
    (translate cfg (some text) opts st pending pr now f).networkCalled = true ∧
    (translate cfg (some text) opts st pending pr now f).storage
      = (if cfg.useLocalCache && !opts.force then
          getFromLocalCache (generateCacheKey
            (jsOrS opts.sourceLanguage cfg.defaultSourceLanguage)
            (jsTemplate (jsOrOS opts.targetLanguage cfg.defaultTargetLanguage))
            text) st now else (none, st)).2 := by
  have hres := fetchTranslation_fail text f msg hfail
  have h0 : jsTruthy (some text) = true := by simp [jsTruthy, htext]
  have hT : jsTemplate (some text) = text := rfl
  simp only [Bool.and_eq_true, Bool.not_eq_true'] at hmiss
  refine ⟨?_, ?_, ?_⟩ <;>
    simp [translate, h0, hT, htgt, hne, hmiss, hpend, hres]

/-- C8 witness: a transport failure at a concrete call resolves to the
original text with the failure message. -/
theorem C8_witness :
    (translate cfgW (some "Hello") {} [] [] resW 9 (.transportError "timeout")).result
      = { text := "Hello", translated := false, error := some "timeout" } ∧
    (translate cfgW (some "Hello") {} [] [] resW 9 (.transportError "timeout")).networkCalled
      = true ∧
    (translate cfgW (some "Hello") {} [] [] resW 9 (.transportError "timeout")).storage
      = (if cfgW.useLocalCache && !TranslateOptions.force {} then
          getFromLocalCache (generateCacheKey
            (jsOrS (TranslateOptions.sourceLanguage {}) cfgW.defaultSourceLanguage)
            (jsTemplate (jsOrOS (TranslateOptions.targetLanguage {})
              cfgW.defaultTargetLanguage)) "Hello") [] 9 else (none, [])).2 := by
  exact C8_failure_fallback cfgW "Hello" {} [] [] resW 9 (.transportError "timeout")
    "timeout" (by decide) (by decide) (by decide) (by decide) (by decide) (by decide)

/-! ## C10: an empty translated text is cached but never served -/

/-- The cache key a `translate` call resolves for its text. -/
def resolvedKey (cfg : Config) (opts : TranslateOptions) (text : String) : String :=
  generateCacheKey (jsOrS opts.sourceLanguage cfg.defaultSourceLanguage)
    (jsTemplate (jsOrOS opts.targetLanguage cfg.defaultTargetLanguage)) text

/-- C10: a successful translation whose result text is the empty string is
written to the cache, but any later lookup of that key finds a falsy cached
value: the call never returns `fromCache: true` and issues the network call
again. -/
theorem C10_empty_translation_never_served (cfg : Config) (text : String)
    (opts : TranslateOptions) (st : Storage) (pending : List String)
    (pr : TranslationResult) (n0 : Nat)
    (hcache : cfg.useLocalCache = true)
    (htext : text ≠ "")
    (htgt : jsTruthy (jsOrOS opts.targetLanguage cfg.defaultTargetLanguage) = true)
    (hne : jsOrS opts.sourceLanguage cfg.defaultSourceLanguage ≠
      jsTemplate (jsOrOS opts.targetLanguage cfg.defaultTargetLanguage))
    (hmiss : getItem (storeKey (resolvedKey cfg opts text)) st = none)
    (hpend : resolvedKey cfg opts text ∉ pending) :
    ((translate cfg (some text) opts st pending pr n0
        (.response true none "")).result
      = { text := "", translated := true } ∧
     getItem (storeKey (resolvedKey cfg opts text))
        (translate cfg (some text) opts st pending pr n0
          (.response true none "")).storage
      = some { value := "", expires := n0 + cfg.cacheTTL * 1000 }) ∧
    (∀ (st2 : Storage) (e n2 : Nat) (f2 : FetchOutcome),
      getItem (storeKey (resolvedKey cfg opts text)) st2
          = some { value := "", expires := e } →
      ¬ e < n2 →
      (translate cfg (some text) opts st2 pending pr n2 f2).networkCalled = true ∧
      (translate cfg (some text) opts st2 pending pr n2 f2).result.fromCache
        ≠ some true) := by
  have h0 : jsTruthy (some text) = true := by simp [jsTruthy, htext]
  have hT : jsTemplate (some text) = text := rfl
  have hjn : jsTruthy (none : Option String) = false := rfl
  have hje : jsTruthy (some "") = false := rfl
  simp only [resolvedKey] at hmiss hpend
  constructor
  · have hlook : getFromLocalCache (generateCacheKey
        (jsOrS opts.sourceLanguage cfg.defaultSourceLanguage)
        (jsTemplate (jsOrOS opts.targetLanguage cfg.defaultTargetLanguage))
        text) st n0 = (none, st) := by
      simp [getFromLocalCache, hmiss]
    constructor
    · simp [translate, h0, hT, htext, htgt, hne, hlook, hpend, hjn,
        fetchTranslation]
    · simp [translate, resolvedKey, h0, hT, htext, htgt, hne, hlook, hpend, hjn,
        fetchTranslation, hcache, saveToLocalCache, getItem_setItem_self]
  · intro st2 e n2 f2 hhit hlive
    simp only [resolvedKey] at hhit
    have hlook2 : getFromLocalCache (generateCacheKey
        (jsOrS opts.sourceLanguage cfg.defaultSourceLanguage)
        (jsTemplate (jsOrOS opts.targetLanguage cfg.defaultTargetLanguage))
        text) st2 n2 = (some "", st2) := by
      simp [getFromLocalCache, hhit, hlive]
    cases hf : opts.force <;>
      refine ⟨?_, ?_⟩ <;>
        simp [translate, h0, hT, htext, htgt, hne, hlook2, hpend, hcache, hf,
          hjn, hje] <;>
        cases f2 with
        | transportError m => simp [fetchTranslation]
        | response ok eF t => cases ok <;> simp [fetchTranslation]

/-- C10 witness: the theorem at a concrete `en → es` call whose server
response is a successful empty translation, followed by a lookup of the
stored empty value. -/
theorem C10_witness :
    ((translate cfgW (some "Hi") {} [] [] resW 50 (.response true none "")).result
      = { text := "", translated := true } ∧
     getItem (storeKey (resolvedKey cfgW {} "Hi"))
        (translate cfgW (some "Hi") {} [] [] resW 50 (.response true none "")).storage
      = some { value := "", expires := 50 + cfgW.cacheTTL * 1000 }) ∧
    ((translate cfgW (some "Hi") {}
        [(storeKey (resolvedKey cfgW {} "Hi"),
          { value := "", expires := 86400050 })] [] resW 60
        (.transportError "x")).networkCalled = true ∧
     (translate cfgW (some "Hi") {}
        [(storeKey (resolvedKey cfgW {} "Hi"),
          { value := "", expires := 86400050 })] [] resW 60
        (.transportError "x")).result.fromCache ≠ some true) := by
  have h := C10_empty_translation_never_served cfgW "Hi" {} [] [] resW 50
    (by decide) (by decide) (by decide) (by decide) (by decide) (by decide)
  exact ⟨h.1, h.2 [(storeKey (resolvedKey cfgW {} "Hi"),
    { value := "", expires := 86400050 })] 86400050 60 (.transportError "x")
    (by decide) (by decide)⟩

/-! ## C2: a cache-key hash collision serves the wrong translation -/

/-- C2 (amended): when two distinct source texts collide under
`_simpleHash` (same source and target language), they share one cache key,
so `translate` on the second text returns — as a cache hit — the live,
non-empty translation that was cached for the first text: a collision is a
wrong-translation risk, not merely a cache-miss cost. -/
theorem C2_collision_false_hit (cfg : Config) (opts : TranslateOptions)
    (t1 t2 v : String) (e : Nat) (st : Storage) (pending : List String)
    (pr : TranslationResult) (now : Nat) (f : FetchOutcome)
    (hcache : cfg.useLocalCache = true) (hforce : opts.force = false)
    (ht2 : t2 ≠ "") (hne12 : t1 ≠ t2)
    (hhash : simpleHash t1 = simpleHash t2)
    (htgt : jsTruthy (jsOrOS opts.targetLanguage cfg.defaultTargetLanguage) = true)
    (hne : jsOrS opts.sourceLanguage cfg.defaultSourceLanguage ≠
      jsTemplate (jsOrOS opts.targetLanguage cfg.defaultTargetLanguage))
    (hentry : getItem (storeKey (resolvedKey cfg opts t1)) st
      = some { value := v, expires := e })
    (hv : v ≠ "") (hexp : ¬ e < now) :
    (translate cfg (some t2) opts st pending pr now f).result
      = { text := v, translated := true, fromCache := some true } ∧
    (translate cfg (some t2) opts st pending pr now f).networkCalled = false := by
  have hkey : resolvedKey cfg opts t2 = resolvedKey cfg opts t1 := by
    simp [resolvedKey, generateCacheKey, hhash]
  have h0 : jsTruthy (some t2) = true := by simp [jsTruthy, ht2]
  have hT : jsTemplate (some t2) = t2 := rfl
  have hlook : getFromLocalCache (generateCacheKey
      (jsOrS opts.sourceLanguage cfg.defaultSourceLanguage)
      (jsTemplate (jsOrOS opts.targetLanguage cfg.defaultTargetLanguage))
      t2) st now = (some v, st) := by
    have h2 : getItem (storeKey (resolvedKey cfg opts t2)) st
        = some { value := v, expires := e } := by rw [hkey]; exact hentry
    simp only [resolvedKey] at h2
    simp [getFromLocalCache, h2, hexp]
  have hjv : jsTruthy (some v) = true := by simp [jsTruthy, hv]
  have hTv : jsTemplate (some v) = v := rfl
  constructor <;>
    simp [translate, h0, hT, ht2, htgt, hne, hcache, hforce, hlook, hjv, hTv]

/-- C2 counterexample: `"Aa"` and `"BB"` are distinct texts with colliding
hashes; after a successful translate of `"Aa"` (cached as `"XLATE"`), the
very next call for `"BB"` returns `"XLATE"` as a cache hit — not the claimed
mere cache miss. -/
theorem C2_counterexample :
    "Aa" ≠ "BB" ∧
    simpleHash "Aa" = simpleHash "BB" ∧
    (translate cfgW (some "Aa") {} [] [] resW 1000
        (.response true none "XLATE")).result
      = { text := "XLATE", translated := true } ∧
    (translate cfgW (some "BB") {}
        (translate cfgW (some "Aa") {} [] [] resW 1000
          (.response true none "XLATE")).storage
        [] resW 2000 (.transportError "down")).result
      = { text := "XLATE", translated := true, fromCache := some true } := by
  refine ⟨by decide, by decide, by decide, by decide⟩

/-- C2 witness: the amended theorem at the concrete colliding pair
`"Aa"`/`"BB"` with a concrete cached entry. -/
theorem C2_witness :
    (translate cfgW (some "BB") {}
        [(storeKey (resolvedKey cfgW {} "Aa"), { value := "XLATE", expires := 5000 })]
        [] resW 2000 (.transportError "down")).result
      = { text := "XLATE", translated := true, fromCache := some true } ∧
    (translate cfgW (some "BB") {}
        [(storeKey (resolvedKey cfgW {} "Aa"), { value := "XLATE", expires := 5000 })]
        [] resW 2000 (.transportError "down")).networkCalled = false := by
  exact C2_collision_false_hit cfgW {} "Aa" "BB" "XLATE" 5000
    [(storeKey (resolvedKey cfgW {} "Aa"), { value := "XLATE", expires := 5000 })]
    [] resW 2000 (.transportError "down") (by decide) (by decide) (by decide)
    (by decide) (by decide) (by decide) (by decide) (by decide) (by decide)
    (by decide)

/-! ## C5: cached within the TTL, refetched after it -/

/-- C5 (amended): with caching enabled and `force` unset, after a successful
network translate of `T` whose result text is non-empty, a second call with
the same resolved languages and text at any time `n1 ≤ writeTime + TTL·1000`
returns the cached translation with `fromCache: true` and no network call,
and a call at any time `n2 > writeTime + TTL·1000` (the TTL has elapsed)
issues a fresh network call. -/
theorem C5_ttl_roundtrip (cfg : Config) (opts : TranslateOptions)
    (text rtext : String) (st : Storage) (pending : List String)
    (pr : TranslationResult) (n0 n1 n2 : Nat) (f2 f3 : FetchOutcome)
    (hcache : cfg.useLocalCache = true) (hforce : opts.force = false)
    (htext : text ≠ "") (hrt : rtext ≠ "")
    (htgt : jsTruthy (jsOrOS opts.targetLanguage cfg.defaultTargetLanguage) = true)
    (hne : jsOrS opts.sourceLanguage cfg.defaultSourceLanguage ≠
      jsTemplate (jsOrOS opts.targetLanguage cfg.defaultTargetLanguage))
    (hmiss : getItem (storeKey (resolvedKey cfg opts text)) st = none)
    (hpend : resolvedKey cfg opts text ∉ pending)
    (h01 : n1 ≤ n0 + cfg.cacheTTL * 1000)
    (h02 : n0 + cfg.cacheTTL * 1000 < n2) :
    ((translate cfg (some text) opts st pending pr n0
        (.response true none rtext)).result
      = { text := rtext, translated := true } ∧
     (translate cfg (some text) opts st pending pr n0
        (.response true none rtext)).networkCalled = true) ∧
    ((translate cfg (some text) opts
        (translate cfg (some text) opts st pending pr n0
          (.response true none rtext)).storage pending pr n1 f2).result
      = { text := rtext, translated := true, fromCache := some true } ∧
     (translate cfg (some text) opts
        (translate cfg (some text) opts st pending pr n0
          (.response true none rtext)).storage pending pr n1 f2).networkCalled
      = false) ∧
    (translate cfg (some text) opts
        (translate cfg (some text) opts st pending pr n0
          (.response true none rtext)).storage pending pr n2 f3).networkCalled
      = true := by
  have h0 : jsTruthy (some text) = true := by simp [jsTruthy, htext]
  have hT : jsTemplate (some text) = text := rfl
  have hjn : jsTruthy (none : Option String) = false := rfl
  have hjv : jsTruthy (some rtext) = true := by simp [jsTruthy, hrt]
  have hTv : jsTemplate (some rtext) = rtext := rfl
  have hmiss' := hmiss
  simp only [resolvedKey] at hmiss' hpend
  have hlook : getFromLocalCache (generateCacheKey
      (jsOrS opts.sourceLanguage cfg.defaultSourceLanguage)
      (jsTemplate (jsOrOS opts.targetLanguage cfg.defaultTargetLanguage))
      text) st n0 = (none, st) := by
    simp [getFromLocalCache, hmiss']
  have hst1 : (translate cfg (some text) opts st pending pr n0
      (.response true none rtext)).storage
      = setItem (storeKey (resolvedKey cfg opts text))
          { value := rtext, expires := n0 + cfg.cacheTTL * 1000 } st := by
    simp [translate, resolvedKey, h0, hT, htext, htgt, hne, hcache, hlook,
      hpend, hjn, fetchTranslation, saveToLocalCache]
  have hhit2 : getItem (storeKey (generateCacheKey
      (jsOrS opts.sourceLanguage cfg.defaultSourceLanguage)
      (jsTemplate (jsOrOS opts.targetLanguage cfg.defaultTargetLanguage)) text))
      (setItem (storeKey (resolvedKey cfg opts text))
        { value := rtext, expires := n0 + cfg.cacheTTL * 1000 } st)
      = some { value := rtext, expires := n0 + cfg.cacheTTL * 1000 } := by
    have h := getItem_setItem_self (storeKey (resolvedKey cfg opts text))
      { value := rtext, expires := n0 + cfg.cacheTTL * 1000 } st
    simpa [resolvedKey] using h
  refine ⟨⟨?_, ?_⟩, ⟨?_, ?_⟩, ?_⟩
  · simp [translate, h0, hT, htext, htgt, hne, hlook, hpend, hjn, fetchTranslation]
  · simp [translate, h0, hT, htext, htgt, hne, hlook, hpend, hjn, fetchTranslation]
  · have hlive : ¬ (n0 + cfg.cacheTTL * 1000 < n1) := by omega
    rw [hst1]
    have hlook2 : getFromLocalCache (generateCacheKey
        (jsOrS opts.sourceLanguage cfg.defaultSourceLanguage)
        (jsTemplate (jsOrOS opts.targetLanguage cfg.defaultTargetLanguage))
        text) (setItem (storeKey (resolvedKey cfg opts text))
          { value := rtext, expires := n0 + cfg.cacheTTL * 1000 } st) n1
        = (some rtext, setItem (storeKey (resolvedKey cfg opts text))
            { value := rtext, expires := n0 + cfg.cacheTTL * 1000 } st) := by
      simp [getFromLocalCache, hhit2, hlive]
    simp [translate, h0, hT, htext, htgt, hne, hcache, hforce, hlook2, hjv, hTv]
  · have hlive : ¬ (n0 + cfg.cacheTTL * 1000 < n1) := by omega
    rw [hst1]
    have hlook2 : getFromLocalCache (generateCacheKey
        (jsOrS opts.sourceLanguage cfg.defaultSourceLanguage)
        (jsTemplate (jsOrOS opts.targetLanguage cfg.defaultTargetLanguage))
        text) (setItem (storeKey (resolvedKey cfg opts text))
          { value := rtext, expires := n0 + cfg.cacheTTL * 1000 } st) n1
        = (some rtext, setItem (storeKey (resolvedKey cfg opts text))
            { value := rtext, expires := n0 + cfg.cacheTTL * 1000 } st) := by
      simp [getFromLocalCache, hhit2, hlive]
    simp [translate, h0, hT, htext, htgt, hne, hcache, hforce, hlook2, hjv, hTv]
  · rw [hst1]
    have hlook3 : getFromLocalCache (generateCacheKey
        (jsOrS opts.sourceLanguage cfg.defaultSourceLanguage)
        (jsTemplate (jsOrOS opts.targetLanguage cfg.defaultTargetLanguage))
        text) (setItem (storeKey (resolvedKey cfg opts text))
          { value := rtext, expires := n0 + cfg.cacheTTL * 1000 } st) n2
        = (none, removeItem (storeKey (generateCacheKey
            (jsOrS opts.sourceLanguage cfg.defaultSourceLanguage)
            (jsTemplate (jsOrOS opts.targetLanguage cfg.defaultTargetLanguage))
            text)) (setItem (storeKey (resolvedKey cfg opts text))
          { value := rtext, expires := n0 + cfg.cacheTTL * 1000 } st)) := by
      simp [getFromLocalCache, hhit2, h02]
    simp [translate, h0, hT, htext, htgt, hne, hcache, hforce, hlook3, hjn, hpend]

/-- C5 counterexample: a successful translate whose server text is the empty
string — the second call within the TTL does not return `fromCache: true`
and issues a second network call, against the claim's unconditional promise. -/
theorem C5_counterexample :
    (translate cfgW (some "Hi") {} [] [] resW 1000
        (.response true none "")).result.translated = true ∧
    (translate cfgW (some "Hi") {}
        (translate cfgW (some "Hi") {} [] [] resW 1000
          (.response true none "")).storage [] resW 2000
        (.response true none "")).networkCalled = true ∧
    (translate cfgW (some "Hi") {}
        (translate cfgW (some "Hi") {} [] [] resW 1000
          (.response true none "")).storage [] resW 2000
        (.response true none "")).result.fromCache ≠ some true := by
  refine ⟨by decide, by decide, by decide⟩

/-- C5 witness: the amended theorem at a concrete `en → es` call, checked at
one instant inside and one instant after the TTL window. -/
theorem C5_witness :
    ((translate cfgW (some "Hi") {} [] [] resW 1000
        (.response true none "Hola")).result
      = { text := "Hola", translated := true } ∧
     (translate cfgW (some "Hi") {} [] [] resW 1000
        (.response true none "Hola")).networkCalled = true) ∧
    ((translate cfgW (some "Hi") {}
        (translate cfgW (some "Hi") {} [] [] resW 1000
          (.response true none "Hola")).storage [] resW 2000
        (.transportError "x")).result
      = { text := "Hola", translated := true, fromCache := some true } ∧
     (translate cfgW (some "Hi") {}
        (translate cfgW (some "Hi") {} [] [] resW 1000
          (.response true none "Hola")).storage [] resW 2000
        (.transportError "x")).networkCalled = false) ∧
    (translate cfgW (some "Hi") {}
        (translate cfgW (some "Hi") {} [] [] resW 1000
          (.response true none "Hola")).storage [] resW 86401001
        (.transportError "x")).networkCalled = true := by
  exact C5_ttl_roundtrip cfgW {} "Hi" "Hola" [] [] resW 1000 2000 86401001
    (.transportError "x") (.transportError "x") (by decide) (by decide)
    (by decide) (by decide) (by decide) (by decide) (by decide) (by decide)
    (by decide) (by decide)

/-! ## C9: scope of `clearCache` -/

lemma startsWithL_append_left (a p s : List Char) :
    startsWithL (a ++ p) (a ++ s) = startsWithL p s := by
  induction a with
  | nil => rfl
  | cons c cs ih => simp [startsWithL, ih]

/-- Two colon-free segments followed by a colon separator: if the segments
differ, neither segment-with-separator is a prefix of the other's string. -/
lemma startsWithL_sep_ne : ∀ (d s p q : List Char),
    ':' ∉ d → ':' ∉ s → d ≠ s →
    startsWithL (d ++ ':' :: p) (s ++ ':' :: q) = false
  | [], [], _, _, _, _, hne => absurd rfl hne
  | [], e :: _, _, _, _, hs, _ => by
    have hc : ¬ ((':' : Char) == e) = true := by
      simp only [beq_iff_eq]
      intro h
      exact hs (by simp [← h])
    simp [startsWithL, hc]
  | c :: _, [], _, _, hd, _, _ => by
    have hc : ¬ ((c : Char) == ':') = true := by
      simp only [beq_iff_eq]
      intro h
      exact hd (by simp [h])
    simp [startsWithL, hc]
  | c :: cs, e :: es, p, q, hd, hs, hne => by
    by_cases hce : c = e
    · subst hce
      have hd' : ':' ∉ cs := fun h => hd (List.mem_cons_of_mem _ h)
      have hs' : ':' ∉ es := fun h => hs (List.mem_cons_of_mem _ h)
      have hne' : cs ≠ es := fun h => hne (by rw [h])
      have hrec := startsWithL_sep_ne cs es p q hd' hs' hne'
      simp [startsWithL, hrec]
    · simp [startsWithL, hce]

/-- C9: `clearCache()` keeps exactly the stored entries whose key does not
start with the reserved `"i18n_"` prefix (all library entries go, everything
else survives unchanged); `clearCache(tgt)` keeps exactly the entries whose
key does not start with `` `i18n_${defaultSourceLanguage}:${tgt}:` ``; in
particular every cache entry created with a colon-free source language
different from the default source language survives `clearCache(tgt)`. -/
theorem C9_clear_cache_scope (cfg : Config) (st : Storage) (tgt : String)
    (hcache : cfg.useLocalCache = true) (htgt : tgt ≠ "") :
    (∀ kv : List Char × CacheEntry,
      kv ∈ clearCache cfg none st ↔
        kv ∈ st ∧ startsWithL ("i18n_".toList) kv.1 = false) ∧
    (∀ kv : List Char × CacheEntry,
      kv ∈ clearCache cfg (some tgt) st ↔
        kv ∈ st ∧ startsWithL (("i18n_" ++ cfg.defaultSourceLanguage ++ ":"
          ++ tgt ++ ":").toList) kv.1 = false) ∧
    (∀ (src tgt2 text : String) (e : CacheEntry),
      src ≠ cfg.defaultSourceLanguage → (':' ∉ src.toList) →
      (':' ∉ cfg.defaultSourceLanguage.toList) →
      (storeKey (generateCacheKey src tgt2 text), e) ∈ st →
      (storeKey (generateCacheKey src tgt2 text), e)
        ∈ clearCache cfg (some tgt) st) := by
  have hjt : jsTruthy (some tgt) = true := by simp [jsTruthy, htgt]
  have hmem2 : ∀ kv : List Char × CacheEntry,
      kv ∈ clearCache cfg (some tgt) st ↔
        kv ∈ st ∧ startsWithL (("i18n_" ++ cfg.defaultSourceLanguage ++ ":"
          ++ tgt ++ ":").toList) kv.1 = false := by
    intro kv
    simp [clearCache, hcache, hjt, jsTemplate, List.mem_filter]
  refine ⟨?_, hmem2, ?_⟩
  · intro kv
    simp [clearCache, hcache, jsTruthy, List.mem_filter]
  · intro src tgt2 text e hsrc hcs hcd hmem
    refine (hmem2 _).mpr ⟨hmem, ?_⟩
    have hkey : storeKey (generateCacheKey src tgt2 text)
        = "i18n_".toList ++ (src.toList
            ++ ':' :: (tgt2.toList ++ ':' :: (simpleHash text).toList)) := by
      simp [storeKey, generateCacheKey, String.toList, String.data_append,
        List.append_assoc]
    have hpre : ("i18n_" ++ cfg.defaultSourceLanguage ++ ":" ++ tgt ++ ":").toList
        = "i18n_".toList ++ (cfg.defaultSourceLanguage.toList
            ++ ':' :: (tgt.toList ++ ':' :: ([] : List Char))) := by
      simp [String.toList, String.data_append, List.append_assoc]
    rw [hkey, hpre, startsWithL_append_left]
    exact startsWithL_sep_ne cfg.defaultSourceLanguage.toList src.toList _ _
      hcd hcs (fun h => hsrc (String.toList_inj.mp h).symm)

/-- C9 witness: the theorem at a concrete store holding a library `en → es`
entry, an unrelated key, and an `fr → es` entry: `clearCache()` keeps only
the unrelated key, and the `fr → es` entry survives `clearCache("es")`. -/
theorem C9_witness :
    (("user_pref".toList,
        ({ value := "x", expires := 1 } : CacheEntry))
      ∈ clearCache cfgW none
        [(storeKey (generateCacheKey "en" "es" "Hello"),
            { value := "Hola", expires := 9 }),
         ("user_pref".toList, { value := "x", expires := 1 })]) ∧
    ¬ ((storeKey (generateCacheKey "en" "es" "Hello"),
        ({ value := "Hola", expires := 9 } : CacheEntry))
      ∈ clearCache cfgW none
        [(storeKey (generateCacheKey "en" "es" "Hello"),
            { value := "Hola", expires := 9 }),
         ("user_pref".toList, { value := "x", expires := 1 })]) ∧
    ((storeKey (generateCacheKey "fr" "es" "Hello"),
        ({ value := "Bonjour", expires := 9 } : CacheEntry))
      ∈ clearCache cfgW (some "es")
        [(storeKey (generateCacheKey "fr" "es" "Hello"),
            { value := "Bonjour", expires := 9 })]) := by
  have h := C9_clear_cache_scope cfgW
    [(storeKey (generateCacheKey "en" "es" "Hello"),
        { value := "Hola", expires := 9 }),
     ("user_pref".toList, { value := "x", expires := 1 })] "es"
    (by decide) (by decide)
  have h2 := C9_clear_cache_scope cfgW
    [(storeKey (generateCacheKey "fr" "es" "Hello"),
        { value := "Bonjour", expires := 9 })] "es"
    (by decide) (by decide)
  refine ⟨(h.1 _).mpr ⟨by decide, by decide⟩, ?_, ?_⟩
  · intro hmem
    have := ((h.1 _).mp hmem).2
    revert this
    decide
  · exact h2.2.2 "fr" "es" "Hello" { value := "Bonjour", expires := 9 }
      (by decide) (by decide) (by decide) (by decide)

/-! ## C1: a batch network error hits every item, cache hits included -/

/-- The message of a failed batch network phase, if it failed (transport
rejection, or the thrown `Error(result.error || "Translation failed")` of a
non-2xx response). -/
def batchFetchFailMsg : BatchFetchOutcome → Option String
  | .transportError m => some m
  | .response ok errField _ _ =>
    if ok then none else some (jsOrS errField "Translation failed")

/-- C1 (amended): when the batch network phase throws — transport failure or
non-2xx response — `batchTranslate` returns a top-level `error` field and a
per-item error result `{id, text: originalText, translated: false, error}`
for every processed item, including the items that were cache hits before
the network call: the catch branch maps over all processed items and does
not preserve cached translations. -/
theorem C1_batch_network_error (cfg : Config) (items : List BatchInItem)
    (opts : BatchOptions) (st : Storage) (now : Nat) (fo : BatchFetchOutcome)
    (msg : String)
    (hne : items ≠ [])
    (hfail : batchFetchFailMsg fo = some msg)
    (hunc : (batchCachePhase cfg opts items st now).1.filter
        (fun p => !p.translated) ≠ []) :
    (batchTranslate cfg items opts st now fo).error = some msg ∧
    (batchTranslate cfg items opts st now fo).results
      = (batchCachePhase cfg opts items st now).1.map (fun p =>
          { id := p.id, text := p.text, translated := false,
            error := some msg }) := by
  have hne' : items.isEmpty = false := by
    cases items with
    | nil => exact absurd rfl hne
    | cons a l => rfl
  have hunc' : ((batchCachePhase cfg opts items st now).1.filter
      (fun p => !p.translated)).isEmpty = false := by
    revert hunc
    cases (batchCachePhase cfg opts items st now).1.filter
        (fun p => !p.translated) with
    | nil => intro h; exact absurd rfl h
    | cons a l => intro h; rfl
  cases fo with
  | transportError m =>
    simp only [batchFetchFailMsg, Option.some.injEq] at hfail
    subst hfail
    constructor <;> simp [batchTranslate, hne', hunc']
  | response ok eF rs jId =>
    cases ok with
    | true => simp [batchFetchFailMsg] at hfail
    | false =>
      simp only [batchFetchFailMsg, Bool.false_eq_true, ↓reduceIte,
        Option.some.injEq] at hfail
      constructor <;> simp [batchTranslate, hne', hunc', hfail]

/-- C1 counterexample: a two-item batch whose first item is a cache hit; the
transport then fails. The first item's result is the per-item error result
with the original text — its cached translation `"Hola"` is gone, against
the claim that cache hits are unaffected. -/
theorem C1_counterexample :
    ((batchCachePhase cfgW {}
        [{ id := "a", text := "Hello" }, { id := "b", text := "World" }]
        [(storeKey (generateCacheKey "en" "es" "Hello"),
            { value := "Hola", expires := 999999 })] 1000).1.map
          (fun p => p.translated) = [true, false]) ∧
    (batchTranslate cfgW
        [{ id := "a", text := "Hello" }, { id := "b", text := "World" }] {}
        [(storeKey (generateCacheKey "en" "es" "Hello"),
            { value := "Hola", expires := 999999 })] 1000
        (.transportError "down")).results
      = [{ id := "a", text := "Hello", translated := false,
            error := some "down" },
         { id := "b", text := "World", translated := false,
            error := some "down" }] := by
  refine ⟨by decide, by decide⟩

/-- C1 witness: the amended theorem at the same concrete two-item batch. -/
theorem C1_witness :
    (batchTranslate cfgW
        [{ id := "a", text := "Hello" }, { id := "b", text := "World" }] {}
        [(storeKey (generateCacheKey "en" "es" "Hello"),
            { value := "Hola", expires := 999999 })] 1000
        (.transportError "down")).error = some "down" ∧
    (batchTranslate cfgW
        [{ id := "a", text := "Hello" }, { id := "b", text := "World" }] {}
        [(storeKey (generateCacheKey "en" "es" "Hello"),
            { value := "Hola", expires := 999999 })] 1000
        (.transportError "down")).results
      = (batchCachePhase cfgW {}
          [{ id := "a", text := "Hello" }, { id := "b", text := "World" }]
          [(storeKey (generateCacheKey "en" "es" "Hello"),
              { value := "Hola", expires := 999999 })] 1000).1.map (fun p =>
            { id := p.id, text := p.text, translated := false,
              error := some "down" }) := by
  exact C1_batch_network_error cfgW
    [{ id := "a", text := "Hello" }, { id := "b", text := "World" }] {}
    [(storeKey (generateCacheKey "en" "es" "Hello"),
        { value := "Hola", expires := 999999 })] 1000
    (.transportError "down") "down" (by decide) (by decide) (by decide)

/-! ## C6: shape of the synchronous batch result -/

lemma markCacheHits_map_id (now : Nat) :
    ∀ (ps : List ProcItem) (st : Storage),
      ((markCacheHits now ps st).1).map (fun p => p.id) = ps.map (fun p => p.id)
  | [], _ => rfl
  | p :: ps, st => by
    simp only [markCacheHits, List.map_cons]
    rw [markCacheHits_map_id now ps]
    by_cases h : jsTruthy (getFromLocalCache (procCacheKey p) st now).1 = true
    · simp [h]
    · simp only [Bool.not_eq_true] at h
      simp [h]

lemma batchCachePhase_map_id (cfg : Config) (opts : BatchOptions)
    (items : List BatchInItem) (st : Storage) (now : Nat) :
    ((batchCachePhase cfg opts items st now).1).map (fun p => p.id)
      = items.map (fun it => it.id) := by
  unfold batchCachePhase
  by_cases h : (cfg.useLocalCache && !opts.force) = true
  · simp only [h, if_true, markCacheHits_map_id]
    simp [processItems, List.map_map]
  · simp only [Bool.not_eq_true] at h
    simp only [h, Bool.false_eq_true, if_false]
    simp [processItems, List.map_map]

lemma filter_translated_length (l : List ProcItem) :
    (l.filter (fun p => !p.translated)).length
      + (l.filter (fun p => p.translated)).length = l.length := by
  induction l with
  | nil => rfl
  | cons p ps ih =>
    cases hp : p.translated <;> simp [List.filter_cons, hp] <;> omega

lemma translatedMapFind_id (rs : List ServerItem) (i : String) (s : ServerItem) :
    translatedMapFind rs i = some s → s.id = i := by
  suffices h : ∀ acc : Option ServerItem, (∀ s', acc = some s' → s'.id = i) →
      rs.foldl (fun acc it => if it.id = i then some it else acc) acc = some s →
      s.id = i by
    intro hfind
    exact h none (by intro s' h'; cases h') hfind
  induction rs with
  | nil =>
    intro acc hacc heq
    exact hacc s heq
  | cons r rs ih =>
    intro acc hacc heq
    simp only [List.foldl_cons] at heq
    by_cases hr : r.id = i
    · exact ih (some r) (by intro s' h'; cases h'; exact hr) (by simpa [hr] using heq)
    · exact ih acc hacc (by simpa [hr] using heq)

/-- C6 (amended): for a non-empty batch of `N` items of which `K` are cache
hits and at least one item is uncached, a synchronous `batchTranslate`
issues exactly one network call carrying exactly the `N−K` uncached items
(a batch in which every item is a cache hit issues none), and returns `N`
results aligned with the original input order (the i-th result carries the
i-th input's id), where cache-hit items carry their cached text with
`fromCache: true`, uncached items carry the last server result with their
id, and uncached items missing from the server response get
`{translated: false, error: "Translation failed"}`. -/
theorem C6_batch_sync_shape (cfg : Config) (items : List BatchInItem)
    (opts : BatchOptions) (st : Storage) (now : Nat)
    (eF : Option String) (rs : List ServerItem) (jId : Option String)
    (hne : items ≠ [])
    (hasync : opts.async = false)
    (hunc : (batchCachePhase cfg opts items st now).1.filter
        (fun p => !p.translated) ≠ []) :
    (batchTranslate cfg items opts st now
        (.response true eF (some rs) jId)).networkPayloads
      = [(batchCachePhase cfg opts items st now).1.filter
          (fun p => !p.translated)] ∧
    ((batchCachePhase cfg opts items st now).1.filter
        (fun p => !p.translated)).length
      + ((batchCachePhase cfg opts items st now).1.filter
          (fun p => p.translated)).length
      = items.length ∧
    (batchTranslate cfg items opts st now
        (.response true eF (some rs) jId)).results.map (fun r => r.id)
      = items.map (fun it => it.id) ∧
    (batchTranslate cfg items opts st now
        (.response true eF (some rs) jId)).results
      = (batchCachePhase cfg opts items st now).1.map (fun p =>
          if p.translated then
            { id := p.id, text := p.translatedText.getD "", translated := true,
              fromCache := some true }
          else
            match translatedMapFind rs p.id with
            | some s => serverItemResult s
            | none => { id := p.id, text := p.text, translated := false,
                        error := some "Translation failed" }) := by
  have hne' : items.isEmpty = false := by
    cases items with
    | nil => exact absurd rfl hne
    | cons a l => rfl
  have hunc' : ((batchCachePhase cfg opts items st now).1.filter
      (fun p => !p.translated)).isEmpty = false := by
    revert hunc
    cases (batchCachePhase cfg opts items st now).1.filter
        (fun p => !p.translated) with
    | nil => intro h; exact absurd rfl h
    | cons a l => intro h; rfl
  have hresults : (batchTranslate cfg items opts st now
      (.response true eF (some rs) jId)).results
      = (batchCachePhase cfg opts items st now).1.map (fun p =>
          if p.translated then
            { id := p.id, text := p.translatedText.getD "", translated := true,
              fromCache := some true }
          else
            match translatedMapFind rs p.id with
            | some s => serverItemResult s
            | none => { id := p.id, text := p.text, translated := false,
                        error := some "Translation failed" }) := by
    simp [batchTranslate, hne', hunc', hasync]
  refine ⟨?_, ?_, ?_, hresults⟩
  · simp [batchTranslate, hne', hunc', hasync]
  · have hlen : (batchCachePhase cfg opts items st now).1.length = items.length := by
      have h := congrArg List.length (batchCachePhase_map_id cfg opts items st now)
      simpa using h
    rw [← hlen]
    exact filter_translated_length _
  · rw [hresults, List.map_map, ← batchCachePhase_map_id cfg opts items st now]
    apply List.map_congr_left
    intro p _
    by_cases hp : p.translated = true
    · simp [hp]
    · simp only [Bool.not_eq_true] at hp
      simp only [Function.comp_apply, hp, Bool.false_eq_true, if_false]
      cases hfind : translatedMapFind rs p.id with
      | none => rfl
      | some s =>
        simp only []
        exact translatedMapFind_id rs p.id s hfind

/-- C6 counterexample: a one-item batch whose only item is a cache hit
issues zero network calls, not the claimed exactly-one network call. -/
theorem C6_counterexample :
    ((batchCachePhase cfgW {} [{ id := "a", text := "Hello" }]
        [(storeKey (generateCacheKey "en" "es" "Hello"),
            { value := "Hola", expires := 999999 })] 1000).1.map
          (fun p => p.translated) = [true]) ∧
    (batchTranslate cfgW [{ id := "a", text := "Hello" }] {}
        [(storeKey (generateCacheKey "en" "es" "Hello"),
            { value := "Hola", expires := 999999 })] 1000
        (.transportError "x")).networkPayloads = [] ∧
    (batchTranslate cfgW [{ id := "a", text := "Hello" }] {}
        [(storeKey (generateCacheKey "en" "es" "Hello"),
            { value := "Hola", expires := 999999 })] 1000
        (.transportError "x")).results
      = [{ id := "a", text := "Hola", translated := true,
            fromCache := some true }] := by
  refine ⟨by decide, by decide, by decide⟩

/-- C6 witness: the amended theorem at a concrete two-item batch — one item
cached, the other translated by the server. -/
theorem C6_witness :
    (batchTranslate cfgW
        [{ id := "a", text := "Hello" }, { id := "b", text := "World" }] {}
        [(storeKey (generateCacheKey "en" "es" "Hello"),
            { value := "Hola", expires := 999999 })] 1000
        (.response true none
          (some [{ id := "b", text := "Mundo", translated := true }])
          none)).networkPayloads
      = [(batchCachePhase cfgW {}
          [{ id := "a", text := "Hello" }, { id := "b", text := "World" }]
          [(storeKey (generateCacheKey "en" "es" "Hello"),
              { value := "Hola", expires := 999999 })] 1000).1.filter
            (fun p => !p.translated)] ∧
    ((batchCachePhase cfgW {}
        [{ id := "a", text := "Hello" }, { id := "b", text := "World" }]
        [(storeKey (generateCacheKey "en" "es" "Hello"),
            { value := "Hola", expires := 999999 })] 1000).1.filter
          (fun p => !p.translated)).length
      + ((batchCachePhase cfgW {}
          [{ id := "a", text := "Hello" }, { id := "b", text := "World" }]
          [(storeKey (generateCacheKey "en" "es" "Hello"),
              { value := "Hola", expires := 999999 })] 1000).1.filter
            (fun p => p.translated)).length = 2 ∧
    (batchTranslate cfgW
        [{ id := "a", text := "Hello" }, { id := "b", text := "World" }] {}
        [(storeKey (generateCacheKey "en" "es" "Hello"),
            { value := "Hola", expires := 999999 })] 1000
        (.response true none
          (some [{ id := "b", text := "Mundo", translated := true }])
          none)).results.map (fun r => r.id) = ["a", "b"] ∧
    (batchTranslate cfgW
        [{ id := "a", text := "Hello" }, { id := "b", text := "World" }] {}
        [(storeKey (generateCacheKey "en" "es" "Hello"),
            { value := "Hola", expires := 999999 })] 1000
        (.response true none
          (some [{ id := "b", text := "Mundo", translated := true }])
          none)).results
      = (batchCachePhase cfgW {}
          [{ id := "a", text := "Hello" }, { id := "b", text := "World" }]
          [(storeKey (generateCacheKey "en" "es" "Hello"),
              { value := "Hola", expires := 999999 })] 1000).1.map (fun p =>
            if p.translated then
              { id := p.id, text := p.translatedText.getD "",
                translated := true, fromCache := some true }
            else
              match translatedMapFind
                  [{ id := "b", text := "Mundo", translated := true }] p.id with
              | some s => serverItemResult s
              | none => { id := p.id, text := p.text, translated := false,
                          error := some "Translation failed" }) := by
  exact C6_batch_sync_shape cfgW
    [{ id := "a", text := "Hello" }, { id := "b", text := "World" }] {}
    [(storeKey (generateCacheKey "en" "es" "Hello"),
        { value := "Hola", expires := 999999 })] 1000 none
    [{ id := "b", text := "Mundo", translated := true }] none
    (by decide) (by decide) (by decide)

/-! ## C4: one in-flight request per key; shared results; guaranteed cleanup -/

lemma concInv_initConc : concInv initConc := by
  constructor <;> simp [initConc]

lemma pending_find_of_mem : ∀ (l : List (String × Nat)) (k : String) (r : Nat),
    (l.map Prod.fst).Nodup → (k, r) ∈ l →
    l.find? (fun kv => kv.1 == k) = some (k, r)
  | [], _, _, _, hmem => absurd hmem (List.not_mem_nil _)
  | (k', r') :: l, k, r, hnd, hmem => by
    rw [List.map_cons, List.nodup_cons] at hnd
    by_cases hk : k' = k
    · subst hk
      rcases List.mem_cons.mp hmem with h | h
      · rw [← h]
        simp [List.find?]
      · exact absurd (List.mem_map.mpr ⟨(k', r), h, rfl⟩) hnd.1
    · have hmem' : (k, r) ∈ l := by
        rcases List.mem_cons.mp hmem with h | h
        · cases h; exact absurd rfl hk
        · exact h
      have hbeq : ((k', r').1 == k) = false := by
        simp [hk]
      rw [List.find?_cons_of_neg _ (by simp [hbeq])]
      exact pending_find_of_mem l k r hnd.2 hmem'

lemma pending_key_unique (l : List (String × Nat))
    (hnd : (l.map Prod.fst).Nodup) (k : String) (r1 r2 : Nat)
    (h1 : (k, r1) ∈ l) (h2 : (k, r2) ∈ l) : r1 = r2 := by
  have hf1 := pending_find_of_mem l k r1 hnd h1
  have hf2 := pending_find_of_mem l k r2 hnd h2
  rw [hf1] at hf2
  exact (Prod.mk.injEq _ _ _ _ ▸ Option.some.injEq _ _ ▸ hf2).2

lemma concInv_step (s : ConcState) (e : ConcEvent) (h : concInv s) :
    concInv (concStep s e) := by
  obtain ⟨hnd, hmir⟩ := h
  cases e with
  | call caller key =>
    cases hf : s.pending.find? (fun kv => kv.1 == key) with
    | some kv =>
      constructor <;> simp [concStep, hf, hnd, hmir]
    | none =>
      have hnot : key ∉ s.pending.map Prod.fst := by
        intro hk
        rcases List.mem_map.mp hk with ⟨kv, hkv, hfst⟩
        have := List.find?_eq_none.mp hf kv hkv
        simp [hfst] at this
      constructor
      · simp only [concStep, hf, List.map_cons, List.nodup_cons]
        exact ⟨hnot, hnd⟩
      · simp [concStep, hf, hmir]
  | settle rid res =>
    cases hany : s.inFlight.any (fun p => p.1 == rid) with
    | false =>
      constructor
      · simpa [concStep, hany] using hnd
      · simpa [concStep, hany] using hmir
    | true =>
      constructor
      · simp only [concStep, hany, if_true]
        exact List.Nodup.sublist (List.Sublist.map _ (List.filter_sublist _)) hnd
      · simp only [concStep, hany, if_true]
        rw [hmir, List.filter_map]
        rfl

lemma concInv_run (evs : List ConcEvent) : concInv (concRun evs) := by
  suffices h : ∀ s, concInv s → concInv (evs.foldl concStep s) by
    exact h initConc concInv_initConc
  induction evs with
  | nil => intro s hs; exact hs
  | cons e es ih =>
    intro s hs
    exact ih _ (concInv_step s e hs)

/-- C4: the pending-request registry keeps at most one in-flight network
request per cache key. In every state reachable by calls and settlements
from a fresh client, two in-flight requests for the same key are the same
request; a caller arriving while its key is pending creates no new request
and awaits the existing one; settling a request removes its registry entry
and takes it out of flight whatever result it settled with (success or
failure); and any two callers awaiting the same request receive the same
result when it settles. -/
theorem C4_pending_registry :
    (∀ (evs : List ConcEvent) (r1 r2 : Nat) (k1 k2 : String),
      (r1, k1) ∈ (concRun evs).inFlight → (r2, k2) ∈ (concRun evs).inFlight →
      k1 = k2 → r1 = r2) ∧
    (∀ (s : ConcState) (c2 : Nat) (k : String) (r : Nat), concInv s →
      (k, r) ∈ s.pending →
      (concStep s (.call c2 k)).inFlight = s.inFlight ∧
      (concStep s (.call c2 k)).pending = s.pending ∧
      (c2, r) ∈ (concStep s (.call c2 k)).waiters) ∧
    (∀ (s : ConcState) (rid : Nat) (res : TranslationResult),
      s.inFlight.any (fun p => p.1 == rid) = true →
      (∀ kv ∈ (concStep s (.settle rid res)).pending, kv.2 ≠ rid) ∧
      (∀ p ∈ (concStep s (.settle rid res)).inFlight, p.1 ≠ rid)) ∧
    (∀ (s : ConcState) (rid : Nat) (res : TranslationResult) (c1 c2 : Nat),
      (c1, rid) ∈ s.waiters → (c2, rid) ∈ s.waiters →
      s.inFlight.any (fun p => p.1 == rid) = true →
      (c1, res) ∈ (concStep s (.settle rid res)).results ∧
      (c2, res) ∈ (concStep s (.settle rid res)).results) := by
  refine ⟨?_, ?_, ?_, ?_⟩
  · intro evs r1 r2 k1 k2 h1 h2 hk
    obtain ⟨hnd, hmir⟩ := concInv_run evs
    rw [hmir] at h1 h2
    rcases List.mem_map.mp h1 with ⟨kv1, hkv1, he1⟩
    rcases List.mem_map.mp h2 with ⟨kv2, hkv2, he2⟩
    have hkv1' : kv1 = (k1, r1) := by
      cases kv1
      simpa [Prod.ext_iff, and_comm] using he1
    have hkv2' : kv2 = (k2, r2) := by
      cases kv2
      simpa [Prod.ext_iff, and_comm] using he2
    subst hkv1' hkv2' hk
    exact pending_key_unique _ hnd k1 r1 r2 hkv1 hkv2
  · intro s c2 k r hinv hmem
    have hf := pending_find_of_mem s.pending k r hinv.1 hmem
    refine ⟨?_, ?_, ?_⟩ <;> simp [concStep, hf]
  · intro s rid res hany
    constructor
    · intro kv hkv
      simp only [concStep, hany, if_true, List.mem_filter] at hkv
      simpa using hkv.2
    · intro p hp
      simp only [concStep, hany, if_true, List.mem_filter] at hp
      simpa using hp.2
  · intro s rid res c1 c2 h1 h2 hany
    have hres : (concStep s (.settle rid res)).results
        = s.results
          ++ (s.waiters.filter (fun w => w.2 == rid)).map (fun w => (w.1, res)) := by
      simp [concStep, hany]
    constructor
    · rw [hres]
      exact List.mem_append.mpr (Or.inr (List.mem_map.mpr
        ⟨(c1, rid), List.mem_filter.mpr ⟨h1, by simp⟩, rfl⟩))
    · rw [hres]
      exact List.mem_append.mpr (Or.inr (List.mem_map.mpr
        ⟨(c2, rid), List.mem_filter.mpr ⟨h2, by simp⟩, rfl⟩))

/-- C4 witness: two concrete callers for the key `"k"`; the second finds the
first's request pending, and settling request `0` delivers the same result
to both. -/
theorem C4_witness :
    ((0, "k") ∈ (concRun [.call 1 "k", .call 2 "k"]).inFlight →
      (0, "k") ∈ (concRun [.call 1 "k", .call 2 "k"]).inFlight →
      ("k" : String) = "k" → (0 : Nat) = 0) ∧
    (((1, { text := "T", translated := true }) : Nat × TranslationResult)
        ∈ (concStep (concRun [.call 1 "k", .call 2 "k"])
            (.settle 0 { text := "T", translated := true })).results ∧
     ((2, { text := "T", translated := true }) : Nat × TranslationResult)
        ∈ (concStep (concRun [.call 1 "k", .call 2 "k"])
            (.settle 0 { text := "T", translated := true })).results) := by
  constructor
  · exact C4_pending_registry.1 [.call 1 "k", .call 2 "k"] 0 0 "k" "k"
  · exact C4_pending_registry.2.2.2 (concRun [.call 1 "k", .call 2 "k"]) 0
      { text := "T", translated := true } 1 2 (by decide) (by decide) (by decide)

end AI18n
